import Mathlib

/-!
Shallow embedding of the pagination/capture/normalize core of the pytok
scraper: `Search.search_type` (src/pytok/api/search.py), `User.videos`,
`User.liked`, `User.info_full` and `User.__find_attributes`
(src/TikTokApi/api/user.py).

Raw site JSON dictionaries are embedded as structures carrying exactly the
fields the code reads; a field read with `.get(key, default)` becomes an
`Option` consumed with `getD`, a field read with `[key]` that may be absent
becomes an `Option` whose `none` case raises.  A response body whose
`json.loads` fails is embedded as a `none` body.  The browser environment
(one `get_requests` capture batch per while-loop iteration, one `get_data`
response per iteration for `liked`) is embedded as a list of batches; when
the list runs out while the loop still wants more, the run ends in
`outOfFuel` (the real loop would keep scrolling and polling).  Exceptions
become an explicit error type threaded through the outcome.
-/

namespace PyTok

/-- Exceptions raised by the embedded code paths. -/
inductive Err where
  | invalidJSON
  | keyError
  | valueError
  | notFound (msg : String)
deriving DecidableEq, Repr

/-! ## Search.search_type (src/pytok/api/search.py, browser pull method) -/

/-- Result-type discriminator: `obj_type` is "user" or "item". -/
inductive ObjType where
  | user
  | item
deriving DecidableEq, Repr

/-- The fields of a decoded search response envelope that
`Search.search_type` reads: `res.get('type')`, `res.get("user_list", [])`,
`res.get("item_list", [])`, `res.get("has_more", 0)`.  Result items are
opaque (embedded as `Nat` tokens). -/
structure SearchEnvelope where
  etype : Option String
  user_list : List Nat
  item_list : List Nat
  has_more : Option Int
deriving DecidableEq, Repr

/-- A captured request: URL plus the outcome of decoding its response body
(`none` embeds a `json.JSONDecodeError` from `json.loads`). -/
structure SReq where
  url : String
  body : Option SearchEnvelope
deriving DecidableEq, Repr

/-- Mutable loop state of `Search.search_type`: `processed_urls`,
`amount_yielded`, and the sequence of yielded items in order. -/
structure SState where
  processed : List String
  amount : Nat
  yielded : List Nat
deriving DecidableEq, Repr

/-- Outcome of a search pagination run: `finished` embeds a `return` (or
the while-condition turning false), `outOfFuel` embeds the supplied capture
trace running out while the loop still wants more items. -/
inductive SOutcome where
  | finished (st : SState)
  | outOfFuel (st : SState)
deriving DecidableEq, Repr

def SOutcome.state : SOutcome → SState
  | .finished st => st
  | .outOfFuel st => st

/-- The list of items the `obj_type`-selected branch iterates over. -/
def envItems (obj : ObjType) (env : SearchEnvelope) : List Nat :=
  match obj with
  | .user => env.user_list
  | .item => env.item_list

/-- The inner `for request in search_requests` loop body of
`Search.search_type`: append the URL to `processed_urls`, decode the body
(`continue` on decode failure), `continue` on a `type == 'verify'` captcha
denial, otherwise yield the envelope's items and `return` (flag `true`)
when `res.get("has_more", 0) == 0`. -/
def searchBatch (obj : ObjType) : List SReq → SState → SState × Bool
  | [], st => (st, false)
  | r :: rest, st =>
    let st1 : SState := { st with processed := st.processed ++ [r.url] }
    match r.body with
    | none => searchBatch obj rest st1
    | some env =>
      if env.etype = some "verify" then
        searchBatch obj rest st1
      else
        let items := envItems obj env
        let st2 : SState := { st1 with
          amount := st1.amount + items.length
          yielded := st1.yielded ++ items }
        if env.has_more.getD 0 = 0 then (st2, true)
        else searchBatch obj rest st2

/-- The outer `while amount_yielded < count` loop of `Search.search_type`:
each iteration captures a batch, filters out already-processed URLs
(`request.url not in processed_urls`), and runs the inner loop. -/
def searchLoop (obj : ObjType) (count : Nat) : List (List SReq) → SState → SOutcome
  | [], st =>
    if st.amount < count then .outOfFuel st else .finished st
  | batch :: rest, st =>
    if st.amount < count then
      let fil := batch.filter (fun r => decide (r.url ∉ st.processed))
      match searchBatch obj fil st with
      | (st1, true) => .finished st1
      | (st1, false) => searchLoop obj count rest st1
    else .finished st

/-- `Search.search_type(obj_type, count)` over a trace of capture batches,
starting from the empty state. -/
def searchRun (obj : ObjType) (count : Nat) (trace : List (List SReq)) : SOutcome :=
  searchLoop obj count trace ⟨[], 0, []⟩

/-! ## User.videos (src/TikTokApi/api/user.py) -/

/-- A raw first-page video from the bootstrap `ItemModule`: the fields
`User.videos` reads when normalizing (`createTime` arrives as a string,
`author` is the author's unique name). -/
structure RawVideo where
  createTime : String
  author : String
  authorId : String
  nickname : String
  avatarThumb : String
  authorSecId : String
deriving DecidableEq, Repr

/-- The per-user flags copied out of `res["UserModule"]["users"][name]`. -/
structure UserFlags where
  signature : String
  verified : Bool
  secret : Bool
  ftc : Bool
  relation : Int
  openFavorite : Bool
  commentSetting : Int
  duetSetting : Int
  stitchSetting : Int
  privateAccount : Bool
deriving DecidableEq, Repr

/-- The embedded author object assembled by `User.videos` for a first-page
video. -/
structure Author where
  id : String
  uniqueId : String
  nickname : String
  avatarThumb : String
  signature : String
  verified : Bool
  secUid : String
  secret : Bool
  ftc : Bool
  relation : Int
  openFavorite : Bool
  commentSetting : Int
  duetSetting : Int
  stitchSetting : Int
  privateAccount : Bool
deriving DecidableEq, Repr

/-- A normalized first-page video: integer `createTime` plus the assembled
author object. -/
structure NormalizedVideo where
  createTime : Int
  author : Author
deriving DecidableEq, Repr

/-- Accumulating decimal parser over a character list (helper for
`pyInt?`). -/
def pyDigitsAux (acc : Nat) : List Char → Option Nat
  | [] => some acc
  | c :: cs =>
    if '0' ≤ c ∧ c ≤ '9' then pyDigitsAux (acc * 10 + (c.toNat - '0'.toNat)) cs
    else none

/-- Python's `int(str)` coercion on the decimal strings the site delivers:
an optional leading minus followed by at least one digit; anything else
raises `ValueError` (embedded as `none`). -/
def pyInt? (s : String) : Option Int :=
  match s.data with
  | [] => none
  | '-' :: cs => if cs = [] then none else (pyDigitsAux 0 cs).map (fun n => -(n : Int))
  | cs => (pyDigitsAux 0 cs).map (fun n => (n : Int))

/-- `res["UserModule"]["users"][name]` lookup (first matching key). -/
def lookupUser (users : List (String × UserFlags)) (name : String) : Option UserFlags :=
  (users.find? (fun p => p.1 = name)).map (fun p => p.2)

/-- First-page normalization of one raw video in `User.videos`:
`video['createTime'] = int(video['createTime'])` (a non-numeric string
raises `ValueError`) and reassembly of `video['author']` from the
users-map entry keyed by the author's unique name (a missing key raises
`KeyError`). -/
def normalizeFirstPageVideo (users : List (String × UserFlags)) (v : RawVideo) :
    Except Err NormalizedVideo :=
  match pyInt? v.createTime with
  | none => .error .valueError
  | some ct =>
    match lookupUser users v.author with
    | none => .error .keyError
    | some u =>
      .ok { createTime := ct
            author := { id := v.authorId
                        uniqueId := v.author
                        nickname := v.nickname
                        avatarThumb := v.avatarThumb
                        signature := u.signature
                        verified := u.verified
                        secUid := v.authorSecId
                        secret := u.secret
                        ftc := u.ftc
                        relation := u.relation
                        openFavorite := u.openFavorite
                        commentSetting := u.commentSetting
                        duetSetting := u.duetSetting
                        stitchSetting := u.stitchSetting
                        privateAccount := u.privateAccount } }

/-- The first-page normalization loop: normalizes every `ItemModule` video
in order, propagating the first raised error (the loop mutates all videos
before any is yielded). -/
def normalizeAll (users : List (String × UserFlags)) :
    List RawVideo → Except Err (List NormalizedVideo)
  | [] => .ok []
  | v :: vs =>
    match normalizeFirstPageVideo users v with
    | .error e => .error e
    | .ok nv =>
      match normalizeAll users vs with
      | .error e => .error e
      | .ok nvs => .ok (nv :: nvs)

/-- The decoded bootstrap data of a first-page response: the `ItemModule`
video values, the `UserModule.users` map, and
`res['ItemList']['user-post']['hasMore']`. -/
structure FirstPageRes where
  itemModule : List RawVideo
  userModule : List (String × UserFlags)
  hasMore : Bool
deriving DecidableEq, Repr

/-- A captured first-page request of `User.videos`: URL plus the outcome of
`extract_tag_contents` + `json.loads` on its body (`none` embeds a decode
failure, which raises). -/
structure VReq1 where
  url : String
  body : Option FirstPageRes
deriving DecidableEq, Repr

/-- The fields of a decoded subsequent-page envelope that `User.videos`
reads: `res.get('type')`, `res.get("itemList", [])`,
`res.get("hasMore", False)`.  Subsequent-page items are opaque `Nat`
tokens (they are passed through to `self.parent.video(data=...)`). -/
structure SubseqRes where
  etype : Option String
  itemList : Option (List Nat)
  hasMore : Option Bool
deriving DecidableEq, Repr

/-- A captured subsequent-page request of `User.videos`: URL plus the
outcome of `json.loads` on its body (`none` embeds a
`json.JSONDecodeError`, which `User.videos` does not catch). -/
structure VReqN where
  url : String
  body : Option SubseqRes
deriving DecidableEq, Repr

/-- An item yielded by `User.videos`: a normalized first-page video or an
opaque subsequent-page item. -/
inductive PageItem where
  | firstPage (v : NormalizedVideo)
  | laterPage (v : Nat)
deriving DecidableEq, Repr

/-- Mutable loop state of `User.videos`: `searched_urls` (appended to for
every processed request, never consulted), `amount_yielded`, and the
yielded sequence in order. -/
structure VState where
  searched : List String
  amount : Nat
  yielded : List PageItem
deriving DecidableEq, Repr

/-- Result of the inner `for request in search_requests` loop of
`User.videos`: normal completion with a flag recording whether the loop
executed `return`, or a raised exception. -/
inductive VBatchOut where
  | ok (st : VState) (returned : Bool)
  | raised (st : VState) (e : Err)
deriving DecidableEq, Repr

/-- Outcome of a `User.videos` run. -/
inductive VOutcome where
  | finished (st : VState)
  | outOfFuel (st : VState)
  | raised (st : VState) (e : Err)
deriving DecidableEq, Repr

def VOutcome.state : VOutcome → VState
  | .finished st => st
  | .outOfFuel st => st
  | .raised st _ => st

def VOutcome.isRaised : VOutcome → Bool
  | .raised _ _ => true
  | _ => false

/-- The inner request loop of `User.videos` on the first iteration
(`request_num == 1`): append the URL to `searched_urls` (no filtering),
decode the bootstrap data (a failure raises), normalize and yield every
`ItemModule` video, then `return` when
`res['ItemList']['user-post']['hasMore']` is false. -/
def videosBatch1 : List VReq1 → VState → VBatchOut
  | [], st => .ok st false
  | r :: rest, st =>
    let st1 : VState := { st with searched := st.searched ++ [r.url] }
    match r.body with
    | none => .raised st1 .invalidJSON
    | some res =>
      match normalizeAll res.userModule res.itemModule with
      | .error e => .raised st1 e
      | .ok nvs =>
        let st2 : VState := { st1 with
          amount := st1.amount + nvs.length
          yielded := st1.yielded ++ nvs.map PageItem.firstPage }
        if res.hasMore then videosBatch1 rest st2 else .ok st2 true

/-- The inner request loop of `User.videos` on subsequent iterations
(`request_num > 1`): append the URL to `searched_urls` (no filtering),
`json.loads` the body (a decode failure raises out of the generator),
`continue` on a `type == 'verify'` captcha denial, otherwise yield
`res.get("itemList", [])` and `return` when `res.get("hasMore", False)` is
false. -/
def videosBatchN : List VReqN → VState → VBatchOut
  | [], st => .ok st false
  | r :: rest, st =>
    let st1 : VState := { st with searched := st.searched ++ [r.url] }
    match r.body with
    | none => .raised st1 .invalidJSON
    | some res =>
      if res.etype = some "verify" then
        videosBatchN rest st1
      else
        let videos := res.itemList.getD []
        let st2 : VState := { st1 with
          amount := st1.amount + videos.length
          yielded := st1.yielded ++ videos.map PageItem.laterPage }
        if res.hasMore.getD false then videosBatchN rest st2 else .ok st2 true

/-- The `while amount_yielded < count` loop of `User.videos` from the
second iteration on, one capture batch per iteration. -/
def videosLoopN (count : Nat) : List (List VReqN) → VState → VOutcome
  | [], st => if st.amount < count then .outOfFuel st else .finished st
  | batch :: rest, st =>
    if st.amount < count then
      match videosBatchN batch st with
      | .raised st1 e => .raised st1 e
      | .ok st1 true => .finished st1
      | .ok st1 false => videosLoopN count rest st1
    else .finished st

/-- `User.videos(count)` over a first-page capture batch followed by a
trace of subsequent-page capture batches, starting from the empty state. -/
def videosRun (count : Nat) (firstBatch : List VReq1) (rest : List (List VReqN)) : VOutcome :=
  if 0 < count then
    match videosBatch1 firstBatch ⟨[], 0, []⟩ with
    | .raised st e => .raised st e
    | .ok st true => .finished st
    | .ok st false => videosLoopN count rest st
  else .finished ⟨[], 0, []⟩

/-! ## User.liked (src/TikTokApi/api/user.py) -/

/-- The fields of one `get_data` response that `User.liked` reads:
`"itemList" in res.keys()` / `res.get("itemList", [])` (embedded as one
`Option`), `res.get("hasMore", False)`, and `res["cursor"]` (a missing
cursor raises `KeyError`).  Liked videos are opaque `Nat` tokens. -/
structure LikedRes where
  itemList : Option (List Nat)
  hasMore : Option Bool
  cursor : Option Int
deriving DecidableEq, Repr

/-- The privacy diagnostic `User.liked` logs when the first page lacks
`itemList`. -/
def privateLikesMsg : String := "User\x27s likes are most likely private"

/-- The diagnostic logged when has-more turns false. -/
def noMoreMsg : String := "TikTok isn\x27t sending more TikToks beyond this point."

/-- Mutable loop state of `User.liked`: `amount_yielded`, the yielded
sequence, the log record, the `first` flag and the threaded `cursor`. -/
structure LState where
  amount : Nat
  yielded : List Nat
  logs : List String
  first : Bool
  cursor : Int
deriving DecidableEq, Repr

/-- Outcome of a `User.liked` run. -/
inductive LOutcome where
  | finished (st : LState)
  | outOfFuel (st : LState)
  | raised (st : LState) (e : Err)
deriving DecidableEq, Repr

def LOutcome.state : LOutcome → LState
  | .finished st => st
  | .outOfFuel st => st
  | .raised st _ => st

def LOutcome.isRaised : LOutcome → Bool
  | .raised _ _ => true
  | _ => false

/-- The `while amount_yielded < count` loop of `User.liked`, one
`get_data` response per iteration.  Faithful to the source, the loop both
adds `len(videos)` to `amount_yielded` and increments it again once per
yielded video, and the has-more check is skipped on the first page
(`if not res.get("hasMore", False) and not first`). -/
def likedLoop (count : Nat) : List LikedRes → LState → LOutcome
  | [], st => if st.amount < count then .outOfFuel st else .finished st
  | res :: more, st =>
    if st.amount < count then
      match res.itemList with
      | none =>
        .finished (if st.first then { st with logs := st.logs ++ [privateLikesMsg] } else st)
      | some videos =>
        let st1 : LState := { st with
          amount := st.amount + videos.length + videos.length
          yielded := st.yielded ++ videos }
        if !(res.hasMore.getD false) && !st.first then
          .finished { st1 with logs := st1.logs ++ [noMoreMsg] }
        else
          match res.cursor with
          | none => .raised st1 .keyError
          | some c => likedLoop count more { st1 with first := false, cursor := c }
    else .finished st

/-- `User.liked(count, cursor)` over a trace of `get_data` responses. -/
def likedRun (count : Nat) (cursor : Int) (trace : List LikedRes) : LOutcome :=
  likedLoop count trace ⟨0, [], [], true, cursor⟩

/-! ## User.info_full and User.__find_attributes (src/TikTokApi/api/user.py) -/

/-- The fields of the profile-page `userInfo` substructure that the code
reads downstream (`info()["user"]` exposes `id`, `secUid`, `uniqueId`). -/
structure UserInfoD where
  id : String
  secUid : String
  uniqueId : String
deriving DecidableEq, Repr

/-- The `props.pageProps` slice of the decoded bootstrap data that
`User.info_full` reads: `statusCode` and `userInfo`. -/
structure PageProps where
  statusCode : Int
  userInfo : UserInfoD
deriving DecidableEq, Repr

/-- `User.info_full` after the profile HTML has been fetched and its
bootstrap JSON decoded: raise `NotFoundException` when
`user_props["statusCode"] == 404`, else return `user_props["userInfo"]`. -/
def info_full (username : String) (props : PageProps) : Except Err UserInfoD :=
  if props.statusCode = 404 then
    .error (.notFound ("TikTok user with username " ++ username ++ " does not exist"))
  else .ok props.userInfo

/-- A user record as yielded by `search.users` (the attributes
`__find_attributes` compares and copies). -/
structure SUser where
  username : String
  user_id : String
  sec_uid : String
deriving DecidableEq, Repr

/-- The fallback arm of `User.__find_attributes`: call `self.info()` (the
full profile fetch) and copy `id`/`secUid`/`uniqueId`; the returned flag
records that the profile fetch was performed. -/
def profileFallback (profileFetch : Except Err UserInfoD) : Except Err (SUser × Bool) :=
  match profileFetch with
  | .ok info => .ok (⟨info.uniqueId, info.id, info.secUid⟩, true)
  | .error e => .error e

/-- `User.__find_attributes`: scan the search results for the first user
whose `username` equals the requested one and copy its attributes (flag
`false`: no profile fetch); only when no exact match exists fall back to
the full profile-info fetch. -/
def find_attributes (username : String) (searchResults : List SUser)
    (profileFetch : Except Err UserInfoD) : Except Err (SUser × Bool) :=
  match searchResults.find? (fun u => u.username == username) with
  | some u => .ok (u, false)
  | none => profileFallback profileFetch

/-! ## Theorems -/

/-- Claim C1: the claim asserts every pagination operation yields at least
`count` items before terminating unless has-more turns false first or the
first page errs.  `User.liked` violates it: it adds `len(videos)` to
`amount_yielded` and then increments it again for every yielded video, so
a run with `count = 30` whose first response carries 20 videos and
`hasMore = True` terminates normally having yielded only 20 items. -/
theorem liked_undercount_run :
    likedRun 30 0 [⟨some (List.range 20), some true, some 0⟩] =
      .finished ⟨40, List.range 20, [], false, 0⟩ ∧
    (List.range 20).length < 30 := by
  exact ⟨rfl, by decide⟩

/-- Claim C3: a captured response whose decoded envelope has
`type == 'verify'` is skipped by both pagination drivers: processing it
only records its URL — nothing is yielded, the count is untouched, its
has-more flag is never consulted, and the inner loop continues with the
remaining captured responses instead of returning. -/
theorem verify_envelope_skipped (obj : ObjType) (url : String) (ul il : List Nat)
    (hm : Option Int) (rest : List SReq) (st : SState)
    (urlN : String) (itl : Option (List Nat)) (hmB : Option Bool)
    (restN : List VReqN) (stN : VState) :
    searchBatch obj (⟨url, some ⟨some "verify", ul, il, hm⟩⟩ :: rest) st =
      searchBatch obj rest { st with processed := st.processed ++ [url] } ∧
    videosBatchN (⟨urlN, some ⟨some "verify", itl, hmB⟩⟩ :: restN) stN =
      videosBatchN restN { stN with searched := stN.searched ++ [urlN] } := by
  constructor <;> simp [searchBatch, videosBatchN]

/-- Claim C4 (counterexample): the claim asserts a JSON decode failure on a
subsequent page never raises out of the pagination sequence.  In
`User.videos` the subsequent-page `json.loads(body)` is not wrapped in a
try/except, so a malformed body raises out of the generator. -/
theorem videos_decode_failure_raises :
    videosRun 5 [⟨"u0", some ⟨[], [], true⟩⟩] [[⟨"u1", none⟩]] =
      .raised ⟨["u0", "u1"], 0, []⟩ .invalidJSON ∧
    (videosRun 5 [⟨"u0", some ⟨[], [], true⟩⟩] [[⟨"u1", none⟩]]).isRaised = true := by
  exact ⟨rfl, rfl⟩

/-- Claim C4 (amended): `Search.search_type` skips a captured body whose
JSON decoding fails and continues with the remaining captured responses of
the page, while `User.videos` raises out of the pagination sequence on the
first subsequent-page body that fails to decode. -/
theorem decode_failure_handling (obj : ObjType) (url : String) (rest : List SReq)
    (st : SState) (urlN : String) (restN : List VReqN) (stN : VState) :
    searchBatch obj (⟨url, none⟩ :: rest) st =
      searchBatch obj rest { st with processed := st.processed ++ [url] } ∧
    videosBatchN (⟨urlN, none⟩ :: restN) stN =
      .raised { stN with searched := stN.searched ++ [urlN] } .invalidJSON := by
  exact ⟨rfl, rfl⟩

/-- Claim C5: when the profile bootstrap data carries
`pageProps.statusCode == 404`, `User.info_full` raises `NotFoundException`
whose message contains the requested username; otherwise it returns the
`pageProps.userInfo` substructure. -/
theorem info_full_profile_resolution (username : String) (props : PageProps) :
    (props.statusCode = 404 →
      info_full username props =
        .error (.notFound ("TikTok user with username " ++ username ++ " does not exist")) ∧
      ∃ pre post,
        "TikTok user with username " ++ username ++ " does not exist" =
          pre ++ username ++ post) ∧
    (props.statusCode ≠ 404 → info_full username props = .ok props.userInfo) := by
  constructor
  · intro h
    exact ⟨by simp [info_full, h], "TikTok user with username ", " does not exist", rfl⟩
  · intro h
    simp [info_full, h]

/-- Witness for C5 at a concrete 404 page and a concrete non-404 page. -/
theorem info_full_profile_resolution_witness :
    (info_full "alice" ⟨404, ⟨"1", "s", "alice"⟩⟩ =
      .error (.notFound ("TikTok user with username " ++ "alice" ++ " does not exist")) ∧
      ∃ pre post,
        "TikTok user with username " ++ "alice" ++ " does not exist" =
          pre ++ "alice" ++ post) ∧
    info_full "bob" ⟨0, ⟨"2", "t", "bob"⟩⟩ = .ok ⟨"2", "t", "bob"⟩ := by
  exact ⟨(info_full_profile_resolution "alice" ⟨404, ⟨"1", "s", "alice"⟩⟩).1 rfl,
         (info_full_profile_resolution "bob" ⟨0, ⟨"2", "t", "bob"⟩⟩).2 (by decide)⟩

/-- Claim C7: a first-page raw video with string `createTime`
`"1690000000"`, author unique name `"alice"` and `authorId` `"1"`,
combined with a users-map entry keyed `"alice"`, normalizes to integer
`createTime` 1690000000 and an embedded author with `id = "1"`,
`uniqueId = "alice"`, and all flag fields copied from the users-map
entry. -/
theorem normalize_first_page_video_alice (u : UserFlags) (nick av sec : String) :
    normalizeFirstPageVideo [("alice", u)] ⟨"1690000000", "alice", "1", nick, av, sec⟩ =
      .ok ⟨1690000000,
           ⟨"1", "alice", nick, av, u.signature, u.verified, sec, u.secret, u.ftc,
            u.relation, u.openFavorite, u.commentSetting, u.duetSetting,
            u.stitchSetting, u.privateAccount⟩⟩ := by
  rfl

/-- Claim C9: a `User.liked` run whose first-page response lacks the
`itemList` key finishes with an empty yielded sequence (no exception) and
the privacy diagnostic logged. -/
theorem liked_private_returns_empty (count : Nat) (cursor : Int) (res : LikedRes)
    (rest : List LikedRes) (hc : 0 < count) (hi : res.itemList = none) :
    likedRun count cursor (res :: rest) =
      .finished ⟨0, [], [privateLikesMsg], true, cursor⟩ := by
  simp [likedRun, likedLoop, hc, hi]

/-- Witness for C9 at a concrete response lacking itemList. -/
theorem liked_private_returns_empty_witness :
    likedRun 5 0 [⟨none, none, none⟩] =
      .finished ⟨0, [], [privateLikesMsg], true, 0⟩ := by
  exact liked_private_returns_empty 5 0 ⟨none, none, none⟩ [] (by decide) rfl

/-- Claim C6: `User.__find_attributes` resolves identifiers from the
search results first — when some result's username equals the requested
one exactly, the returned attributes come from a matching search result
and no profile fetch happens (flag `false`); the full profile-info fetch
runs exactly when no exact match exists. -/
theorem find_attributes_two_tier (username : String) (searchResults : List SUser)
    (profileFetch : Except Err UserInfoD) :
    ((∃ u ∈ searchResults, u.username = username) →
      ∃ u, find_attributes username searchResults profileFetch = .ok (u, false) ∧
        u.username = username) ∧
    ((∀ u ∈ searchResults, u.username ≠ username) →
      find_attributes username searchResults profileFetch = profileFallback profileFetch) := by
  constructor
  · rintro ⟨u, hu, heq⟩
    have hsome : (searchResults.find? (fun v => v.username == username)).isSome := by
      rw [List.find?_isSome]
      exact ⟨u, hu, by simp [heq]⟩
    obtain ⟨v, hv⟩ := Option.isSome_iff_exists.mp hsome
    refine ⟨v, by simp [find_attributes, hv], ?_⟩
    have := List.find?_some hv
    simpa using this
  · intro h
    have hnone : searchResults.find? (fun v => v.username == username) = none := by
      rw [List.find?_eq_none]
      intro v hv
      simp [h v hv]
    simp [find_attributes, hnone]

/-- Witness for C6: with an exact match present the profile fetch is
skipped; with none it is performed. -/
theorem find_attributes_two_tier_witness :
    (∃ u, find_attributes "alice" [⟨"bob", "2", "t"⟩, ⟨"alice", "1", "s"⟩]
        (.ok ⟨"9", "z", "alice"⟩) = .ok (u, false) ∧ u.username = "alice") ∧
    find_attributes "carol" [⟨"bob", "2", "t"⟩] (.ok ⟨"9", "z", "carol"⟩) =
      profileFallback (.ok ⟨"9", "z", "carol"⟩) := by
  exact ⟨(find_attributes_two_tier "alice" [⟨"bob", "2", "t"⟩, ⟨"alice", "1", "s"⟩]
            (.ok ⟨"9", "z", "alice"⟩)).1 ⟨⟨"alice", "1", "s"⟩, by decide, rfl⟩,
         (find_attributes_two_tier "carol" [⟨"bob", "2", "t"⟩]
            (.ok ⟨"9", "z", "carol"⟩)).2 (by decide)⟩

/-- Claim C8: once `Search.search_type` processes a captured response whose
envelope has `has_more == 0`, the run finishes right there with exactly
that response's items appended — the remaining captured responses of the
batch and all later batches are never consumed, so no item from any later
response is yielded and no further page request is issued. -/
theorem search_terminates_on_has_more_zero
    (obj : ObjType) (count : Nat) (st : SState) (url : String) (env : SearchEnvelope)
    (moreReqs : List SReq) (restBatches : List (List SReq))
    (hcount : st.amount < count) (hurl : url ∉ st.processed)
    (hv : env.etype ≠ some "verify") (hm : env.has_more = some 0) :
    searchLoop obj count ((⟨url, some env⟩ :: moreReqs) :: restBatches) st =
      .finished { st with processed := st.processed ++ [url],
                          amount := st.amount + (envItems obj env).length,
                          yielded := st.yielded ++ envItems obj env } := by
  simp [searchLoop, hcount, List.filter_cons, hurl, searchBatch, hv, hm]

/-- Witness for C8 at a concrete state, batch and trailing trace. -/
theorem search_terminates_on_has_more_zero_witness :
    searchLoop .user 5 [[⟨"a", some ⟨none, [1, 2], [9], some 0⟩⟩,
                         ⟨"b", some ⟨none, [3], [], some 1⟩⟩],
                        [⟨"c", some ⟨none, [4], [], some 1⟩⟩]] ⟨[], 0, []⟩ =
      .finished ⟨["a"], 2, [1, 2]⟩ := by
  exact search_terminates_on_has_more_zero .user 5 ⟨[], 0, []⟩ "a"
    ⟨none, [1, 2], [9], some 0⟩ [⟨"b", some ⟨none, [3], [], some 1⟩⟩]
    [[⟨"c", some ⟨none, [4], [], some 1⟩⟩]]
    (by decide) (by decide) (by decide) rfl

/-- Claim C10: a subsequent-page envelope lacking the has-more field ends
pagination in both drivers: `User.videos` reads `res.get("hasMore", False)`
and returns, `Search.search_type` reads `res.get("has_more", 0)` (equal to
0) and returns — in both cases the run finishes with that response's items
appended and no later batch is consumed. -/
theorem missing_has_more_terminates
    (count : Nat) (st : VState) (url : String) (itl : Option (List Nat))
    (restN : List VReqN) (restBatches : List (List VReqN))
    (obj : ObjType) (stS : SState) (urlS : String) (ul il : List Nat)
    (moreReqs : List SReq) (restS : List (List SReq))
    (hva : st.amount < count) (hsa : stS.amount < count) (hsp : urlS ∉ stS.processed) :
    videosLoopN count ((⟨url, some ⟨none, itl, none⟩⟩ :: restN) :: restBatches) st =
      .finished { st with searched := st.searched ++ [url],
                          amount := st.amount + (itl.getD []).length,
                          yielded := st.yielded ++ (itl.getD []).map PageItem.laterPage } ∧
    searchLoop obj count ((⟨urlS, some ⟨none, ul, il, none⟩⟩ :: moreReqs) :: restS) stS =
      .finished { stS with processed := stS.processed ++ [urlS],
                           amount := stS.amount + (envItems obj ⟨none, ul, il, none⟩).length,
                           yielded := stS.yielded ++ envItems obj ⟨none, ul, il, none⟩ } := by
  constructor
  · simp [videosLoopN, hva, videosBatchN]
  · simp [searchLoop, hsa, List.filter_cons, hsp, searchBatch]

/-- Witness for C10 at concrete states and batches. -/
theorem missing_has_more_terminates_witness :
    videosLoopN 9 [[⟨"v1", some ⟨none, some [5, 6], none⟩⟩], [⟨"v2", some ⟨none, some [7], some true⟩⟩]]
        ⟨["v0"], 1, [.laterPage 4]⟩ =
      .finished ⟨["v0", "v1"], 3, [.laterPage 4, .laterPage 5, .laterPage 6]⟩ ∧
    searchLoop .item 9 [[⟨"s1", some ⟨none, [], [8], none⟩⟩], [⟨"s2", some ⟨none, [], [9], some 1⟩⟩]]
        ⟨[], 0, []⟩ =
      .finished ⟨["s1"], 1, [8]⟩ := by
  exact missing_has_more_terminates 9 ⟨["v0"], 1, [.laterPage 4]⟩ "v1" (some [5, 6]) []
    [[⟨"v2", some ⟨none, some [7], some true⟩⟩]] .item ⟨[], 0, []⟩ "s1" [] [8] []
    [[⟨"s2", some ⟨none, [], [9], some 1⟩⟩]] (by decide) (by decide) (by decide)

/-- `searchBatch` appends to `processed_urls` exactly the URLs of the
consumed initial segment of the batch, in order. -/
theorem searchBatch_processed_spec (obj : ObjType) :
    ∀ (rs : List SReq) (st : SState),
      ∃ n, (searchBatch obj rs st).1.processed =
        st.processed ++ (rs.map SReq.url).take n := by
  intro rs
  induction rs with
  | nil => intro st; exact ⟨0, by simp [searchBatch]⟩
  | cons r rest ih =>
    intro st
    cases hb : r.body with
    | none =>
      obtain ⟨n, hn⟩ := ih { st with processed := st.processed ++ [r.url] }
      refine ⟨n + 1, ?_⟩
      simp only [searchBatch, hb]
      rw [hn]
      simp [List.take_succ_cons]
    | some env =>
      by_cases hv : env.etype = some "verify"
      · obtain ⟨n, hn⟩ := ih { st with processed := st.processed ++ [r.url] }
        refine ⟨n + 1, ?_⟩
        simp only [searchBatch, hb, if_pos hv]
        rw [hn]
        simp [List.take_succ_cons]
      · by_cases hm : env.has_more.getD 0 = 0
        · refine ⟨1, ?_⟩
          simp [searchBatch, hb, hv, hm, List.take_succ_cons]
        · obtain ⟨n, hn⟩ := ih
            { st with processed := st.processed ++ [r.url],
                      amount := st.amount + (envItems obj env).length,
                      yielded := st.yielded ++ envItems obj env }
          refine ⟨n + 1, ?_⟩
          simp only [searchBatch, hb, if_neg hv, if_neg hm]
          rw [hn]
          simp [List.take_succ_cons]

/-- Along any `searchLoop` run whose capture batches each carry distinct
URLs, the `processed_urls` record stays duplicate-free: the per-iteration
filter guarantees no URL is consumed twice. -/
theorem searchLoop_processed_nodup (obj : ObjType) (count : Nat) :
    ∀ (trace : List (List SReq)) (st : SState),
      st.processed.Nodup →
      (∀ b ∈ trace, (b.map SReq.url).Nodup) →
      ((searchLoop obj count trace st).state.processed).Nodup := by
  intro trace
  induction trace with
  | nil =>
    intro st h1 _
    by_cases h : st.amount < count <;> simp [searchLoop, h, SOutcome.state, h1]
  | cons batch rest ih =>
    intro st h1 h2
    by_cases hc : st.amount < count
    · have hnodup1 :
          ((searchBatch obj (batch.filter (fun r => decide (r.url ∉ st.processed))) st).1.processed).Nodup := by
        obtain ⟨n, hn⟩ :=
          searchBatch_processed_spec obj
            (batch.filter (fun r => decide (r.url ∉ st.processed))) st
        rw [hn]
        have hfilnodup :
            (((batch.filter (fun r => decide (r.url ∉ st.processed))).map SReq.url)).Nodup :=
          (h2 batch (List.mem_cons_self _ _)).sublist
            ((List.filter_sublist _).map SReq.url)
        refine (List.nodup_append).mpr
          ⟨h1, hfilnodup.sublist (List.take_sublist _ _), ?_⟩
        intro x hxl hxr
        have hxr2 := List.take_subset _ _ hxr
        obtain ⟨r, hr, rfl⟩ := List.mem_map.mp hxr2
        exact (of_decide_eq_true (List.mem_filter.mp hr).2) hxl
      have hunfold : searchLoop obj count (batch :: rest) st =
          match searchBatch obj (batch.filter (fun r => decide (r.url ∉ st.processed))) st with
          | (st1, true) => SOutcome.finished st1
          | (st1, false) => searchLoop obj count rest st1 := by
        simp only [searchLoop, if_pos hc]
      cases hb : searchBatch obj (batch.filter (fun r => decide (r.url ∉ st.processed))) st with
      | mk st1 ret =>
        rw [hb] at hnodup1
        cases ret with
        | true =>
          rw [hunfold, hb]
          exact hnodup1
        | false =>
          rw [hunfold, hb]
          exact ih st1 hnodup1 (fun b hbm => h2 b (List.mem_cons_of_mem _ hbm))
    · simp [searchLoop, hc, SOutcome.state, h1]

/-- Claim C2 (counterexample): the claim asserts both drivers never
reprocess an already-consumed URL within one run.  `User.videos` appends
every captured URL to `searched_urls` but never filters against it, so a
URL already consumed in one iteration is decoded and yielded from again
when the capture buffer returns it in the next iteration: here `"u1"` is
processed twice and its item 7 yielded twice. -/
theorem videos_reprocesses_url :
    videosRun 5 [⟨"u0", some ⟨[], [], true⟩⟩]
        [[⟨"u1", some ⟨none, some [7], some true⟩⟩],
         [⟨"u1", some ⟨none, some [7], some true⟩⟩]] =
      .outOfFuel ⟨["u0", "u1", "u1"], 2, [.laterPage 7, .laterPage 7]⟩ ∧
    ¬ ((videosRun 5 [⟨"u0", some ⟨[], [], true⟩⟩]
        [[⟨"u1", some ⟨none, some [7], some true⟩⟩],
         [⟨"u1", some ⟨none, some [7], some true⟩⟩]]).state.searched).Nodup := by
  exact ⟨rfl, by decide⟩

/-- Claim C2 (amended): `Search.search_type` filters each capture batch
against `processed_urls` before consuming it, so — provided each single
batch carries distinct URLs — no URL is ever processed twice in a run and
the final processed-URL record is duplicate-free.  (`User.videos` records
URLs in `searched_urls` but never filters, so it can reprocess a URL; see
the counterexample.) -/
theorem search_never_reprocesses_url (obj : ObjType) (count : Nat)
    (trace : List (List SReq))
    (h : ∀ b ∈ trace, (b.map SReq.url).Nodup) :
    ((searchRun obj count trace).state.processed).Nodup := by
  exact searchLoop_processed_nodup obj count trace ⟨[], 0, []⟩ (by simp) h

/-- Witness for the amended C2 at a concrete two-batch trace that repeats
a URL across batches. -/
theorem search_never_reprocesses_url_witness :
    ((searchRun .user 9 [[⟨"a", some ⟨none, [1], [], some 1⟩⟩,
                          ⟨"b", some ⟨none, [2], [], some 1⟩⟩],
                         [⟨"a", some ⟨none, [1], [], some 1⟩⟩,
                          ⟨"c", some ⟨none, [3], [], some 1⟩⟩]]).state.processed).Nodup := by
  exact search_never_reprocesses_url .user 9
    [[⟨"a", some ⟨none, [1], [], some 1⟩⟩, ⟨"b", some ⟨none, [2], [], some 1⟩⟩],
     [⟨"a", some ⟨none, [1], [], some 1⟩⟩, ⟨"c", some ⟨none, [3], [], some 1⟩⟩]]
    (by decide)

end PyTok
